import Mathlib

/-!
Shallow embedding of the LBANN data-reader and communication core:
`DataReader` (include/lbann/data_readers/lbann_data_reader.hpp),
`DataReader_ImageNet` (src/data_readers/lbann_data_reader_imagenet.cpp) and
the counter side effects of `lbann_comm` (include/lbann/lbann_comm.hpp).

Machine integers of the source (`int`, `size_t`) are modelled as `Int` / `Nat`;
C++ `/` on `int` is `Int.tdiv` (truncation toward zero).  `std::shuffle` with
the global generator is modelled by an explicit function parameter `sh`; where
a theorem needs it, the hypothesis that `sh` permutes its input is stated.
`rint` (round half to even) applied to a `double` is `rintQ` over `ℚ`; applied
to a C++ `int` quotient it is the identity and is dropped.
-/

namespace Lbann

/-- State of `lbann::DataReader` (lbann_data_reader.hpp, lines 263-279). -/
structure DataReader where
  BatchSize : Int
  CurrentPos : Int
  m_shuffle : Bool
  m_stride : Int
  m_base_offset : Int
  m_model_offset : Int
  m_use_alt_last_mini_batch_size : Bool
  m_last_mini_batch_threshold : Int
  m_last_mini_batch_size : Int
  m_last_mini_batch_stride : Int
  ShuffledIndices : List Int
  m_unused_indices : List Int
deriving Repr, DecidableEq

/-- `getNumData` (line 154): `(int)ShuffledIndices.size()`. -/
def getNumData (r : DataReader) : Int :=
  (r.ShuffledIndices.length : Int)

/-- `position_valid` (line 137): `CurrentPos < (int)ShuffledIndices.size()`. -/
def position_valid (r : DataReader) : Bool :=
  decide (r.CurrentPos < getNumData r)

/-- `getBatchSize` (lines 138-144): the alternate size applies when
`CurrentPos >= m_last_mini_batch_threshold`. -/
def getBatchSize (r : DataReader) : Int :=
  if r.m_use_alt_last_mini_batch_size = true ∧
      r.m_last_mini_batch_threshold ≤ r.CurrentPos then
    r.m_last_mini_batch_size
  else
    r.BatchSize

/-- `get_next_position` (lines 146-152): the alternate stride applies when
`CurrentPos + m_stride > m_last_mini_batch_threshold`. -/
def get_next_position (r : DataReader) : Int :=
  if r.m_use_alt_last_mini_batch_size = true ∧
      r.m_last_mini_batch_threshold < r.CurrentPos + r.m_stride then
    r.CurrentPos + r.m_last_mini_batch_stride
  else
    r.CurrentPos + r.m_stride

/-- `update` (lines 115-131).  `sh` stands for `std::shuffle` with the global
generator; the pair returns the new state and the `bool` result. -/
def update (sh : List Int → List Int) (r : DataReader) : DataReader × Bool :=
  let p :=
    if r.m_use_alt_last_mini_batch_size = true ∧
        r.m_last_mini_batch_threshold < r.CurrentPos + r.m_stride then
      r.CurrentPos + r.m_last_mini_batch_stride
    else
      r.CurrentPos + r.m_stride
  if p < getNumData r then
    ({ r with CurrentPos := p }, true)
  else
    ({ r with
        ShuffledIndices :=
          if r.m_shuffle = true then sh r.ShuffledIndices else r.ShuffledIndices,
        CurrentPos := r.m_base_offset + r.m_model_offset }, false)

/-- `select_subset_of_data` (lines 158-186). -/
def select_subset_of_data (sh : List Int → List Int) (max_sample_count : Nat)
    (firstN : Bool) (r : DataReader) : DataReader :=
  if max_sample_count = 0 then r
  else
    let num_data_samples := r.ShuffledIndices.length
    let m := min max_sample_count num_data_samples
    let idx := if firstN then r.ShuffledIndices else sh r.ShuffledIndices
    if firstN then
      { r with ShuffledIndices := idx.take m, m_unused_indices := idx.drop m }
    else
      { r with
          ShuffledIndices := List.insertionSort (· ≤ ·) (idx.take m),
          m_unused_indices := List.insertionSort (· ≤ ·) (idx.drop m) }

/-- `swap_used_and_unused_index_sets` (lines 188-193). -/
def swap_used_and_unused_index_sets (r : DataReader) : DataReader × Bool :=
  ({ r with ShuffledIndices := r.m_unused_indices,
            m_unused_indices := r.ShuffledIndices }, true)

/-- Round half to even on rationals: the value of C `rint` under the default
rounding mode, as used on the `double` product in `trim_data_set`. -/
def rintQ (q : ℚ) : Int :=
  if q - (⌊q⌋ : ℚ) < 1/2 then ⌊q⌋
  else if (1 : ℚ)/2 < q - (⌊q⌋ : ℚ) then ⌊q⌋ + 1
  else if ⌊q⌋ % 2 = 0 then ⌊q⌋ else ⌊q⌋ + 1

/-- `trim_data_set` (lines 213-222).  The thrown `lbann_exception` is the
`Except.error` value; the first component is the object state when the call
returns or throws. -/
def trim_data_set (sh : List Int → List Int) (use_percentage : ℚ)
    (firstN : Bool) (r : DataReader) : DataReader × Except String Nat :=
  let max_sample_count := rintQ ((getNumData r : ℚ) * use_percentage)
  if getNumData r < max_sample_count ∨ max_sample_count < 0 then
    (r, Except.error "data reader trim error: invalid number of samples selected")
  else
    let r2 := select_subset_of_data sh max_sample_count.toNat firstN r
    (r2, Except.ok r2.ShuffledIndices.length)

/-- Line 226: `(m_stride / comm->get_num_models()) / max_mini_batch_size`,
C++ `int` division. -/
def num_parallel_readers_per_model (m_stride num_models max_mini_batch_size : Int) : Int :=
  (m_stride.tdiv num_models).tdiv max_mini_batch_size

/-- Line 228: `rint(getNumData() / m_stride)`.  Both operands are `int`, so the
division is already integral and `rint` is the identity on its result. -/
def num_whole_mini_batches (numData m_stride : Int) : Int :=
  numData.tdiv m_stride

/-- Line 229: the unadjusted partial mini-batch size. -/
def partial_mini_batch_size0 (numData BatchSize m_stride num_models : Int) : Int :=
  (numData - num_whole_mini_batches numData m_stride * m_stride).tdiv
    (num_models * num_parallel_readers_per_model m_stride num_models BatchSize)

/-- The three derived fields set by `calculate_multi_model_data_distribution`. -/
structure LastBatchParams where
  m_last_mini_batch_threshold : Int
  m_last_mini_batch_size : Int
  m_last_mini_batch_stride : Int
deriving Repr, DecidableEq

/-- `calculate_multi_model_data_distribution` (lines 224-261), as a function of
the reader fields it reads and the `lbann_comm` facts it queries. -/
def calculate_multi_model_data_distribution (numData BatchSize m_stride
    num_models model_rank rank_in_model : Int) (am_world_master : Bool) :
    LastBatchParams :=
  let max_mini_batch_size := BatchSize
  let readers := num_parallel_readers_per_model m_stride num_models max_mini_batch_size
  let whole := num_whole_mini_batches numData m_stride
  let psize0 := partial_mini_batch_size0 numData BatchSize m_stride num_models
  let adj0 := numData - whole * m_stride - psize0 * num_models * readers
  let world_master_remainder_data := if am_world_master then adj0 else 0
  let world_master_remainder_adjustment := if am_world_master then 0 else adj0
  let psize := psize0 + world_master_remainder_data
  let full_stride0 := (num_models - model_rank) * readers
  let last_stride0 := model_rank * readers
  let num_readers_at_full_stride :=
    if rank_in_model < readers then full_stride0 - rank_in_model else full_stride0
  let num_readers_at_last_stride :=
    if rank_in_model < readers then last_stride0 + rank_in_model else last_stride0
  { m_last_mini_batch_threshold := m_stride * whole,
    m_last_mini_batch_size := psize,
    m_last_mini_batch_stride :=
      max_mini_batch_size * num_readers_at_full_stride
        + psize * num_readers_at_last_stride
        + world_master_remainder_adjustment }

/-! ## Claim C1: the whole-mini-batch computation -/

/-- Helper: the division in `num_whole_mini_batches` is the floor for
nonnegative dividend and positive divisor. -/
theorem num_whole_mini_batches_bounds (numData m_stride : Int)
    (hD : 0 ≤ numData) (hs : 0 < m_stride) :
    num_whole_mini_batches numData m_stride * m_stride ≤ numData ∧
      numData < num_whole_mini_batches numData m_stride * m_stride + m_stride := by
  unfold num_whole_mini_batches
  constructor
  · have h1 := Int.tmod_add_tdiv' numData m_stride
    have h2 := Int.tmod_nonneg m_stride hD
    linarith
  · have h3 := Int.lt_tdiv_add_one_mul_self numData hs
    nlinarith [h3]

/-- C1, counterexample: line 228 of lbann_data_reader.hpp divides two C++
`int` values, so `rint` receives an already-truncated integer quotient; for
`total_samples = 1007`, `stride = 10` the code yields `100`, not the
round-to-nearest value `101` the claim asserts. -/
theorem c1_rounding_counterexample :
    num_whole_mini_batches 1007 10 ≠ rintQ ((1007 : ℚ) / 10) := by
  have h : num_whole_mini_batches 1007 10 = 100 := by decide
  have h2 : rintQ ((1007 : ℚ) / 10) = 101 := by norm_num [rintQ]
  rw [h, h2]
  decide

/-- C1, amended: `calculate_multi_model_data_distribution` computes the number
of whole mini-batches by integer floor division of the total sample count by
the stride (the `rint` wrapper is the identity on the integer quotient), the
threshold is `stride * whole_batches ≤ total_samples`, and the derived
partial mini-batch size is never negative, given a nonnegative sample count, a
positive stride and a positive `models × readers` product. -/
theorem c1_whole_batches_floor_div (numData BatchSize m_stride num_models
    model_rank rank_in_model : Int) (master : Bool)
    (hD : 0 ≤ numData) (hs : 0 < m_stride)
    (hMR : 0 < num_models * num_parallel_readers_per_model m_stride num_models BatchSize) :
    num_whole_mini_batches numData m_stride * m_stride ≤ numData ∧
    numData < num_whole_mini_batches numData m_stride * m_stride + m_stride ∧
    (calculate_multi_model_data_distribution numData BatchSize m_stride num_models
        model_rank rank_in_model master).m_last_mini_batch_threshold
      = m_stride * num_whole_mini_batches numData m_stride ∧
    0 ≤ partial_mini_batch_size0 numData BatchSize m_stride num_models ∧
    0 ≤ (calculate_multi_model_data_distribution numData BatchSize m_stride num_models
        model_rank rank_in_model master).m_last_mini_batch_size := by
  obtain ⟨hle, hlt⟩ := num_whole_mini_batches_bounds numData m_stride hD hs
  have hrem : 0 ≤ numData - num_whole_mini_batches numData m_stride * m_stride := by
    linarith
  have hpos0 : 0 ≤ partial_mini_batch_size0 numData BatchSize m_stride num_models :=
    Int.tdiv_nonneg hrem (le_of_lt hMR)
  have hadj : partial_mini_batch_size0 numData BatchSize m_stride num_models
      * (num_models * num_parallel_readers_per_model m_stride num_models BatchSize)
      ≤ numData - num_whole_mini_batches numData m_stride * m_stride := by
    have h1 := Int.tmod_add_tdiv'
      (numData - num_whole_mini_batches numData m_stride * m_stride)
      (num_models * num_parallel_readers_per_model m_stride num_models BatchSize)
    have h2 := Int.tmod_nonneg
      (num_models * num_parallel_readers_per_model m_stride num_models BatchSize) hrem
    unfold partial_mini_batch_size0
    linarith
  refine ⟨hle, hlt, rfl, hpos0, ?_⟩
  have hsize : (calculate_multi_model_data_distribution numData BatchSize m_stride
      num_models model_rank rank_in_model master).m_last_mini_batch_size
      = partial_mini_batch_size0 numData BatchSize m_stride num_models
        + (if master = true then
            numData - num_whole_mini_batches numData m_stride * m_stride
              - partial_mini_batch_size0 numData BatchSize m_stride num_models
                * num_models * num_parallel_readers_per_model m_stride num_models BatchSize
           else 0) := by
    unfold calculate_multi_model_data_distribution
    simp only []
  rw [hsize]
  split
  · rw [mul_assoc (partial_mini_batch_size0 numData BatchSize m_stride num_models)
      num_models (num_parallel_readers_per_model m_stride num_models BatchSize)]
    linarith
  · simpa using hpos0

/-- C1 witness: the single-model, single-reader configuration of the spec
example, `total_samples = 1005`, `batch_size = stride = 10`. -/
theorem c1_whole_batches_floor_div_witness :
    ((0 : Int) ≤ 1005 ∧ (0 : Int) < 10 ∧
      (0 : Int) < 1 * num_parallel_readers_per_model 10 1 10) ∧
    (num_whole_mini_batches 1005 10 * 10 ≤ 1005 ∧
    (1005 : Int) < num_whole_mini_batches 1005 10 * 10 + 10 ∧
    (calculate_multi_model_data_distribution 1005 10 10 1 0 0
        true).m_last_mini_batch_threshold = 10 * num_whole_mini_batches 1005 10 ∧
    0 ≤ partial_mini_batch_size0 1005 10 10 1 ∧
    0 ≤ (calculate_multi_model_data_distribution 1005 10 10 1 0 0
        true).m_last_mini_batch_size) :=
  ⟨⟨by decide, by decide, by decide⟩,
    c1_whole_batches_floor_div 1005 10 10 1 0 0 true (by decide) (by decide) (by decide)⟩

/-! ## Claims C3, C4, C10: the cursor-advance logic -/

/-- Helper: `update` factors through `get_next_position` and the wraparound
test, with the reshuffle exactly on the wrapping branch. -/
theorem update_eq (sh : List Int → List Int) (r : DataReader) :
    update sh r =
      if get_next_position r < getNumData r then
        ({ r with CurrentPos := get_next_position r }, true)
      else
        ({ r with
            ShuffledIndices :=
              if r.m_shuffle = true then sh r.ShuffledIndices else r.ShuffledIndices,
            CurrentPos := r.m_base_offset + r.m_model_offset }, false) :=
  rfl

/-- C10: `get_next_position()` returns exactly the value `update()` assigns to
`CurrentPos` before its wraparound check: `update` succeeds precisely when that
value is still inside the index set, in which case it becomes the new cursor,
and otherwise the cursor wraps to `m_base_offset + m_model_offset`. -/
theorem c10_next_position_refines_update (sh : List Int → List Int) (r : DataReader) :
    ((update sh r).2 = true ↔ get_next_position r < getNumData r) ∧
    (update sh r).1.CurrentPos =
      (if get_next_position r < getNumData r then get_next_position r
       else r.m_base_offset + r.m_model_offset) := by
  rw [update_eq]
  split <;> simp_all

/-- Reader state exhibiting the C3 defect: alternate mode on, cursor at 90,
stride 20, threshold 100, so `CurrentPos + stride > threshold` holds while
`CurrentPos >= threshold` does not. -/
def c3_reader : DataReader :=
  { BatchSize := 10, CurrentPos := 90, m_shuffle := false, m_stride := 20,
    m_base_offset := 10, m_model_offset := 0,
    m_use_alt_last_mini_batch_size := true,
    m_last_mini_batch_threshold := 100, m_last_mini_batch_size := 7,
    m_last_mini_batch_stride := 15,
    ShuffledIndices := [], m_unused_indices := [] }

/-- C3, counterexample: with alternate mode enabled and
`CurrentPos + stride > threshold` (90 + 20 > 100), `getBatchSize()` still
returns `BatchSize`, not `m_last_mini_batch_size`, because its own test is
`CurrentPos >= threshold` (90 < 100). -/
theorem c3_batchsize_condition_counterexample :
    c3_reader.m_use_alt_last_mini_batch_size = true ∧
    c3_reader.m_last_mini_batch_threshold
      < c3_reader.CurrentPos + c3_reader.m_stride ∧
    getBatchSize c3_reader ≠ c3_reader.m_last_mini_batch_size := by
  refine ⟨rfl, by decide, by decide⟩

/-- C3, amended: when alternate mode is enabled and
`CurrentPos + stride > threshold`, the next advance uses
`m_last_mini_batch_stride` (both in `get_next_position` and in `update`, up to
the end-of-epoch wraparound), while `getBatchSize()` switches to
`m_last_mini_batch_size` under the different condition
`CurrentPos >= threshold`, not under the advance condition. -/
theorem c3_alt_stride_behavior (sh : List Int → List Int) (r : DataReader)
    (halt : r.m_use_alt_last_mini_batch_size = true)
    (hc : r.m_last_mini_batch_threshold < r.CurrentPos + r.m_stride) :
    get_next_position r = r.CurrentPos + r.m_last_mini_batch_stride ∧
    (update sh r).1.CurrentPos =
      (if r.CurrentPos + r.m_last_mini_batch_stride < getNumData r
       then r.CurrentPos + r.m_last_mini_batch_stride
       else r.m_base_offset + r.m_model_offset) ∧
    getBatchSize r =
      (if r.m_last_mini_batch_threshold ≤ r.CurrentPos
       then r.m_last_mini_batch_size
       else r.BatchSize) := by
  have hnext : get_next_position r = r.CurrentPos + r.m_last_mini_batch_stride := by
    unfold get_next_position
    rw [if_pos ⟨halt, hc⟩]
  refine ⟨hnext, ?_, ?_⟩
  · rw [update_eq, hnext]
    split <;> simp
  · unfold getBatchSize
    by_cases hthr : r.m_last_mini_batch_threshold ≤ r.CurrentPos
    · rw [if_pos ⟨halt, hthr⟩, if_pos hthr]
    · rw [if_neg (by simp [hthr]), if_neg hthr]

/-- C3 witness: at `c3_reader` the hypotheses hold and the amended behavior is
observed. -/
theorem c3_alt_stride_behavior_witness :
    (c3_reader.m_use_alt_last_mini_batch_size = true ∧
      c3_reader.m_last_mini_batch_threshold
        < c3_reader.CurrentPos + c3_reader.m_stride) ∧
    (get_next_position c3_reader
        = c3_reader.CurrentPos + c3_reader.m_last_mini_batch_stride ∧
    (update id c3_reader).1.CurrentPos =
      (if c3_reader.CurrentPos + c3_reader.m_last_mini_batch_stride
          < getNumData c3_reader
       then c3_reader.CurrentPos + c3_reader.m_last_mini_batch_stride
       else c3_reader.m_base_offset + c3_reader.m_model_offset) ∧
    getBatchSize c3_reader =
      (if c3_reader.m_last_mini_batch_threshold ≤ c3_reader.CurrentPos
       then c3_reader.m_last_mini_batch_size
       else c3_reader.BatchSize)) :=
  ⟨⟨rfl, by decide⟩, c3_alt_stride_behavior id c3_reader rfl (by decide)⟩

/-- Iterated calls to `update`, keeping only the advanced state. -/
def run_update (sh : List Int → List Int) : Nat → DataReader → DataReader
  | 0, r => r
  | n + 1, r => run_update sh n (update sh r).1

theorem run_update_succ (sh : List Int → List Int) (n : Nat) (r : DataReader) :
    run_update sh (n + 1) r = run_update sh n (update sh r).1 :=
  rfl

/-- Helper: with a positive stride (and a positive alternate stride when the
alternate mode is on) the cursor strictly advances. -/
theorem lt_get_next_position (r : DataReader)
    (hs : 0 < r.m_stride)
    (halt : r.m_use_alt_last_mini_batch_size = true → 0 < r.m_last_mini_batch_stride) :
    r.CurrentPos < get_next_position r := by
  unfold get_next_position
  split
  · next h => have := halt h.1; omega
  · omega

/-- C4: starting anywhere, repeated `update()` calls return `true` until the
advanced position crosses the end of `used`, then return `false` exactly once;
on that call the cursor resets to `m_base_offset + m_model_offset` (not `0`)
and `ShuffledIndices` is reshuffled exactly when shuffling is enabled.
Positive strides are the sane configurations `setup` produces. -/
theorem c4_update_wraparound (sh : List Int → List Int) (r : DataReader)
    (_hne : r.ShuffledIndices ≠ [])
    (hs : 0 < r.m_stride)
    (halt : r.m_use_alt_last_mini_batch_size = true → 0 < r.m_last_mini_batch_stride) :
    ∃ n : Nat,
      (∀ m, m < n → (update sh (run_update sh m r)).2 = true) ∧
      (update sh (run_update sh n r)).2 = false ∧
      (update sh (run_update sh n r)).1.CurrentPos
        = r.m_base_offset + r.m_model_offset ∧
      (update sh (run_update sh n r)).1.ShuffledIndices
        = (if r.m_shuffle = true then sh r.ShuffledIndices else r.ShuffledIndices) := by
  suffices H : ∀ (N : Nat) (t : DataReader),
      (getNumData t - t.CurrentPos).toNat ≤ N →
      0 < t.m_stride →
      (t.m_use_alt_last_mini_batch_size = true → 0 < t.m_last_mini_batch_stride) →
      ∃ n : Nat,
        (∀ m, m < n → (update sh (run_update sh m t)).2 = true) ∧
        (update sh (run_update sh n t)).2 = false ∧
        (update sh (run_update sh n t)).1.CurrentPos
          = t.m_base_offset + t.m_model_offset ∧
        (update sh (run_update sh n t)).1.ShuffledIndices
          = (if t.m_shuffle = true then sh t.ShuffledIndices else t.ShuffledIndices) by
    exact H (getNumData r - r.CurrentPos).toNat r le_rfl hs halt
  intro N
  induction N with
  | zero =>
    intro t hN hs1 halt1
    refine ⟨0, by omega, ?_, ?_, ?_⟩ <;>
      · have hstep := lt_get_next_position t hs1 halt1
        have hout : ¬ get_next_position t < getNumData t := by
          unfold getNumData at hN ⊢; omega
        rw [show run_update sh 0 t = t from rfl, update_eq, if_neg hout]
  | succ N ih =>
    intro t hN hs1 halt1
    by_cases hin : get_next_position t < getNumData t
    · have hstep := lt_get_next_position t hs1 halt1
      have hupd : update sh t = ({ t with CurrentPos := get_next_position t }, true) := by
        rw [update_eq, if_pos hin]
      obtain ⟨n, h1, h2, h3, h4⟩ :=
        ih { t with CurrentPos := get_next_position t }
          (by unfold getNumData at hN ⊢; simp only []; omega) hs1 halt1
      refine ⟨n + 1, ?_, ?_, ?_, ?_⟩
      · intro m hm
        match m with
        | 0 => rw [show run_update sh 0 t = t from rfl, hupd]
        | m' + 1 =>
          rw [run_update_succ, hupd]
          exact h1 m' (by omega)
      · rw [run_update_succ, hupd]; exact h2
      · rw [run_update_succ, hupd]; exact h3
      · rw [run_update_succ, hupd]; exact h4
    · refine ⟨0, by omega, ?_, ?_, ?_⟩ <;>
        rw [show run_update sh 0 t = t from rfl, update_eq, if_neg hin]

/-- C4 witness: a two-element index set with stride one wraps after two
successful advances, resetting the cursor to `base + model = 0`. -/
theorem c4_update_wraparound_witness :
    (([0, 1] : List Int) ≠ [] ∧ (0 : Int) < 1 ∧
      ((false = true → (0 : Int) < 0))) ∧
    (∃ n : Nat,
      (∀ m, m < n →
        (update id (run_update id m
          { BatchSize := 1, CurrentPos := 0, m_shuffle := false, m_stride := 1,
            m_base_offset := 0, m_model_offset := 0,
            m_use_alt_last_mini_batch_size := false,
            m_last_mini_batch_threshold := 0, m_last_mini_batch_size := 1,
            m_last_mini_batch_stride := 0,
            ShuffledIndices := [0, 1], m_unused_indices := [] })).2 = true) ∧
      (update id (run_update id n
          { BatchSize := 1, CurrentPos := 0, m_shuffle := false, m_stride := 1,
            m_base_offset := 0, m_model_offset := 0,
            m_use_alt_last_mini_batch_size := false,
            m_last_mini_batch_threshold := 0, m_last_mini_batch_size := 1,
            m_last_mini_batch_stride := 0,
            ShuffledIndices := [0, 1], m_unused_indices := [] })).2 = false ∧
      (update id (run_update id n
          { BatchSize := 1, CurrentPos := 0, m_shuffle := false, m_stride := 1,
            m_base_offset := 0, m_model_offset := 0,
            m_use_alt_last_mini_batch_size := false,
            m_last_mini_batch_threshold := 0, m_last_mini_batch_size := 1,
            m_last_mini_batch_stride := 0,
            ShuffledIndices := [0, 1], m_unused_indices := [] })).1.CurrentPos
        = 0 + 0 ∧
      (update id (run_update id n
          { BatchSize := 1, CurrentPos := 0, m_shuffle := false, m_stride := 1,
            m_base_offset := 0, m_model_offset := 0,
            m_use_alt_last_mini_batch_size := false,
            m_last_mini_batch_threshold := 0, m_last_mini_batch_size := 1,
            m_last_mini_batch_stride := 0,
            ShuffledIndices := [0, 1], m_unused_indices := [] })).1.ShuffledIndices
        = (if false = true then id [0, 1] else ([0, 1] : List Int))) :=
  ⟨⟨by decide, by decide, by decide⟩,
    c4_update_wraparound id
      { BatchSize := 1, CurrentPos := 0, m_shuffle := false, m_stride := 1,
        m_base_offset := 0, m_model_offset := 0,
        m_use_alt_last_mini_batch_size := false,
        m_last_mini_batch_threshold := 0, m_last_mini_batch_size := 1,
        m_last_mini_batch_stride := 0,
        ShuffledIndices := [0, 1], m_unused_indices := [] }
      (by decide) (by decide) (by decide)⟩

/-! ## Claims C6, C7: select_subset_of_data -/

/-- C7: with `firstN = true` and `0 < k ≤ n`, `select_subset_of_data` keeps
exactly the first `k` indices in their prior order and moves the remaining
`n - k` to the unused set in their prior order; no shuffle or sort is applied
(the statement holds for every shuffle function `sh`). -/
theorem c7_select_subset_firstN (sh : List Int → List Int) (k : Nat) (r : DataReader)
    (hk : 0 < k) (hkn : k ≤ r.ShuffledIndices.length) :
    (select_subset_of_data sh k true r).ShuffledIndices = r.ShuffledIndices.take k ∧
    (select_subset_of_data sh k true r).m_unused_indices = r.ShuffledIndices.drop k := by
  unfold select_subset_of_data
  rw [if_neg (Nat.pos_iff_ne_zero.mp hk)]
  simp [Nat.min_eq_left hkn]

/-- C7 witness: taking 2 of 3 indices in first-N mode. -/
theorem c7_select_subset_firstN_witness :
    (0 < 2 ∧ 2 ≤ ([5, 3, 4] : List Int).length) ∧
    ((select_subset_of_data List.reverse 2 true
        { BatchSize := 1, CurrentPos := 0, m_shuffle := false, m_stride := 1,
          m_base_offset := 0, m_model_offset := 0,
          m_use_alt_last_mini_batch_size := false,
          m_last_mini_batch_threshold := 0, m_last_mini_batch_size := 1,
          m_last_mini_batch_stride := 0,
          ShuffledIndices := [5, 3, 4], m_unused_indices := [] }).ShuffledIndices
      = ([5, 3, 4] : List Int).take 2 ∧
    (select_subset_of_data List.reverse 2 true
        { BatchSize := 1, CurrentPos := 0, m_shuffle := false, m_stride := 1,
          m_base_offset := 0, m_model_offset := 0,
          m_use_alt_last_mini_batch_size := false,
          m_last_mini_batch_threshold := 0, m_last_mini_batch_size := 1,
          m_last_mini_batch_stride := 0,
          ShuffledIndices := [5, 3, 4], m_unused_indices := [] }).m_unused_indices
      = ([5, 3, 4] : List Int).drop 2) :=
  ⟨⟨by decide, by decide⟩,
    c7_select_subset_firstN List.reverse 2
      { BatchSize := 1, CurrentPos := 0, m_shuffle := false, m_stride := 1,
        m_base_offset := 0, m_model_offset := 0,
        m_use_alt_last_mini_batch_size := false,
        m_last_mini_batch_threshold := 0, m_last_mini_batch_size := 1,
        m_last_mini_batch_stride := 0,
        ShuffledIndices := [5, 3, 4], m_unused_indices := [] }
      (by decide) (by decide)⟩

/-- C6: with `firstN = false` and `0 < k ≤ n`, after the shuffle (any
permutation `sh`) the used set has exactly `k` elements, both resulting
sequences are sorted ascending, they are disjoint, and together they are a
permutation of the original index set. -/
theorem c6_select_subset_random (sh : List Int → List Int) (k : Nat) (r : DataReader)
    (hk : 0 < k) (hkn : k ≤ r.ShuffledIndices.length)
    (hnd : r.ShuffledIndices.Nodup)
    (hsh : (sh r.ShuffledIndices).Perm r.ShuffledIndices) :
    (select_subset_of_data sh k false r).ShuffledIndices.length = k ∧
    (select_subset_of_data sh k false r).ShuffledIndices.Sorted (· ≤ ·) ∧
    (select_subset_of_data sh k false r).m_unused_indices.Sorted (· ≤ ·) ∧
    (select_subset_of_data sh k false r).ShuffledIndices.Disjoint
      (select_subset_of_data sh k false r).m_unused_indices ∧
    ((select_subset_of_data sh k false r).ShuffledIndices
        ++ (select_subset_of_data sh k false r).m_unused_indices).Perm
      r.ShuffledIndices := by
  have hlen : (sh r.ShuffledIndices).length = r.ShuffledIndices.length :=
    hsh.length_eq
  have hmin : min k r.ShuffledIndices.length = k := Nat.min_eq_left hkn
  have hsel :
      (select_subset_of_data sh k false r).ShuffledIndices
          = List.insertionSort (· ≤ ·) ((sh r.ShuffledIndices).take k) ∧
        (select_subset_of_data sh k false r).m_unused_indices
          = List.insertionSort (· ≤ ·) ((sh r.ShuffledIndices).drop k) := by
    unfold select_subset_of_data
    rw [if_neg (Nat.pos_iff_ne_zero.mp hk)]
    simp [hmin]
  obtain ⟨hselU, hselN⟩ := hsel
  have hndsh : (sh r.ShuffledIndices).Nodup := hsh.symm.nodup hnd
  have hsplit := List.take_append_drop k (sh r.ShuffledIndices)
  have hdisj : ((sh r.ShuffledIndices).take k).Disjoint
      ((sh r.ShuffledIndices).drop k) := by
    have := hndsh
    rw [← hsplit, List.nodup_append] at this
    exact this.2.2
  refine ⟨?_, ?_, ?_, ?_, ?_⟩
  · rw [hselU, (List.perm_insertionSort _ _).length_eq, List.length_take]
    omega
  · rw [hselU]; exact List.sorted_insertionSort _ _
  · rw [hselN]; exact List.sorted_insertionSort _ _
  · rw [hselU, hselN]
    intro a ha hb
    exact hdisj ((List.perm_insertionSort _ _).mem_iff.mp ha)
      ((List.perm_insertionSort _ _).mem_iff.mp hb)
  · rw [hselU, hselN]
    refine ((List.perm_insertionSort _ _).append (List.perm_insertionSort _ _)).trans ?_
    rw [hsplit]
    exact hsh

/-- C6 witness: reversing `[2, 0, 1]` as the shuffle and keeping 2 of 3. -/
theorem c6_select_subset_random_witness :
    (0 < 2 ∧ 2 ≤ ([2, 0, 1] : List Int).length ∧
      ([2, 0, 1] : List Int).Nodup ∧
      (List.reverse [2, 0, 1] : List Int).Perm [2, 0, 1]) ∧
    ((select_subset_of_data List.reverse 2 false
        { BatchSize := 1, CurrentPos := 0, m_shuffle := true, m_stride := 1,
          m_base_offset := 0, m_model_offset := 0,
          m_use_alt_last_mini_batch_size := false,
          m_last_mini_batch_threshold := 0, m_last_mini_batch_size := 1,
          m_last_mini_batch_stride := 0,
          ShuffledIndices := [2, 0, 1], m_unused_indices := [] }).ShuffledIndices.length
        = 2 ∧
      (select_subset_of_data List.reverse 2 false
        { BatchSize := 1, CurrentPos := 0, m_shuffle := true, m_stride := 1,
          m_base_offset := 0, m_model_offset := 0,
          m_use_alt_last_mini_batch_size := false,
          m_last_mini_batch_threshold := 0, m_last_mini_batch_size := 1,
          m_last_mini_batch_stride := 0,
          ShuffledIndices := [2, 0, 1], m_unused_indices := [] }).ShuffledIndices.Sorted (· ≤ ·) ∧
      (select_subset_of_data List.reverse 2 false
        { BatchSize := 1, CurrentPos := 0, m_shuffle := true, m_stride := 1,
          m_base_offset := 0, m_model_offset := 0,
          m_use_alt_last_mini_batch_size := false,
          m_last_mini_batch_threshold := 0, m_last_mini_batch_size := 1,
          m_last_mini_batch_stride := 0,
          ShuffledIndices := [2, 0, 1], m_unused_indices := [] }).m_unused_indices.Sorted (· ≤ ·) ∧
      (select_subset_of_data List.reverse 2 false
        { BatchSize := 1, CurrentPos := 0, m_shuffle := true, m_stride := 1,
          m_base_offset := 0, m_model_offset := 0,
          m_use_alt_last_mini_batch_size := false,
          m_last_mini_batch_threshold := 0, m_last_mini_batch_size := 1,
          m_last_mini_batch_stride := 0,
          ShuffledIndices := [2, 0, 1], m_unused_indices := [] }).ShuffledIndices.Disjoint
        (select_subset_of_data List.reverse 2 false
        { BatchSize := 1, CurrentPos := 0, m_shuffle := true, m_stride := 1,
          m_base_offset := 0, m_model_offset := 0,
          m_use_alt_last_mini_batch_size := false,
          m_last_mini_batch_threshold := 0, m_last_mini_batch_size := 1,
          m_last_mini_batch_stride := 0,
          ShuffledIndices := [2, 0, 1], m_unused_indices := [] }).m_unused_indices ∧
      ((select_subset_of_data List.reverse 2 false
        { BatchSize := 1, CurrentPos := 0, m_shuffle := true, m_stride := 1,
          m_base_offset := 0, m_model_offset := 0,
          m_use_alt_last_mini_batch_size := false,
          m_last_mini_batch_threshold := 0, m_last_mini_batch_size := 1,
          m_last_mini_batch_stride := 0,
          ShuffledIndices := [2, 0, 1], m_unused_indices := [] }).ShuffledIndices
        ++ (select_subset_of_data List.reverse 2 false
        { BatchSize := 1, CurrentPos := 0, m_shuffle := true, m_stride := 1,
          m_base_offset := 0, m_model_offset := 0,
          m_use_alt_last_mini_batch_size := false,
          m_last_mini_batch_threshold := 0, m_last_mini_batch_size := 1,
          m_last_mini_batch_stride := 0,
          ShuffledIndices := [2, 0, 1], m_unused_indices := [] }).m_unused_indices).Perm
        [2, 0, 1]) :=
  ⟨⟨by decide, by decide, by decide, by decide⟩,
    c6_select_subset_random List.reverse 2
      { BatchSize := 1, CurrentPos := 0, m_shuffle := true, m_stride := 1,
        m_base_offset := 0, m_model_offset := 0,
        m_use_alt_last_mini_batch_size := false,
        m_last_mini_batch_threshold := 0, m_last_mini_batch_size := 1,
        m_last_mini_batch_stride := 0,
        ShuffledIndices := [2, 0, 1], m_unused_indices := [] }
      (by decide) (by decide) (by decide) (by decide)⟩

/-! ## Claim C8: trim_data_set error handling -/

/-- Helper: `rintQ` returns a nearest integer (distance at most one half). -/
theorem rintQ_nearest (q : ℚ) : |(rintQ q : ℚ) - q| ≤ 1/2 := by
  unfold rintQ
  have h1 : (⌊q⌋ : ℚ) ≤ q := Int.floor_le q
  have h2 : q < (⌊q⌋ : ℚ) + 1 := Int.lt_floor_add_one q
  split
  · rw [abs_le]; constructor <;> linarith
  · split
    · rw [abs_le]; constructor <;> push_cast <;> linarith
    · split <;> (rw [abs_le]; constructor <;> push_cast <;> linarith)

/-- C8: `trim_data_set` computes the sample count as the nearest integer to
`|used| * fraction` (round half to even), throws the `lbann_exception` exactly
when that count is negative or exceeds `|used|` — leaving the reader unchanged
in that case — and otherwise delegates to `select_subset_of_data` and returns
the new size of the used set. -/
theorem c8_trim_error_handling (sh : List Int → List Int) (p : ℚ)
    (firstN : Bool) (r : DataReader) :
    (∀ q : ℚ, |(rintQ q : ℚ) - q| ≤ 1/2) ∧
    ((trim_data_set sh p firstN r).2
        = Except.error "data reader trim error: invalid number of samples selected"
      ↔ (getNumData r < rintQ ((getNumData r : ℚ) * p)
          ∨ rintQ ((getNumData r : ℚ) * p) < 0)) ∧
    ((getNumData r < rintQ ((getNumData r : ℚ) * p)
        ∨ rintQ ((getNumData r : ℚ) * p) < 0) →
      (trim_data_set sh p firstN r).1 = r) ∧
    (¬ (getNumData r < rintQ ((getNumData r : ℚ) * p)
        ∨ rintQ ((getNumData r : ℚ) * p) < 0) →
      trim_data_set sh p firstN r
        = (select_subset_of_data sh (rintQ ((getNumData r : ℚ) * p)).toNat firstN r,
           Except.ok (select_subset_of_data sh
             (rintQ ((getNumData r : ℚ) * p)).toNat firstN r).ShuffledIndices.length)) := by
  refine ⟨rintQ_nearest, ?_, ?_, ?_⟩
  · by_cases hbad : (getNumData r < rintQ ((getNumData r : ℚ) * p)
        ∨ rintQ ((getNumData r : ℚ) * p) < 0)
    · simp only [trim_data_set, if_pos hbad]
      simpa using hbad
    · simp only [trim_data_set, if_neg hbad]
      simpa using hbad
  · intro hbad
    simp only [trim_data_set, if_pos hbad]
  · intro hgood
    simp only [trim_data_set, if_neg hgood]

/-! ## Claim C5: DataReader_ImageNet load -/

/-- State of `lbann::DataReader_ImageNet`
(lbann_data_reader_imagenet.cpp / .hpp). -/
structure DataReader_ImageNet extends DataReader where
  m_image_dir : String
  ImageList : List (String × Int)
  m_image_width : Int
  m_image_height : Int
  m_num_labels : Int
deriving Repr, DecidableEq

/-- `DataReader_ImageNet::load(imageDir, imageListFile)` (lines 119-145) with
the file contents read by the `fscanf` loop given as `imageList`.  Lines
137-142 reset `ShuffledIndices` to `0..n-1`; `m_unused_indices` is not
touched. -/
def DataReader_ImageNet.load (r : DataReader_ImageNet) (imageDir : String)
    (imageList : List (String × Int)) : DataReader_ImageNet :=
  { r with
      m_image_dir := imageDir,
      ImageList := imageList,
      ShuffledIndices := (List.range imageList.length).map (fun n : Nat => (n : Int)) }

/-- An ImageNet reader whose prior state has a nonempty unused set. -/
def c5_reader : DataReader_ImageNet :=
  { BatchSize := 1, CurrentPos := 0, m_shuffle := false, m_stride := 1,
    m_base_offset := 0, m_model_offset := 0,
    m_use_alt_last_mini_batch_size := false,
    m_last_mini_batch_threshold := 0, m_last_mini_batch_size := 1,
    m_last_mini_batch_stride := 0,
    ShuffledIndices := [], m_unused_indices := [5],
    m_image_dir := "", ImageList := [],
    m_image_width := 256, m_image_height := 256, m_num_labels := 1000 }

/-- C5, counterexample: `load` never clears `m_unused_indices`, so on a reader
whose prior unused set is `[5]` the unused set is not empty after loading one
item, contradicting the claim for arbitrary prior state. -/
theorem c5_load_unused_counterexample :
    (c5_reader.load "" [("a", 0)]).m_unused_indices ≠ ([] : List Int) := by
  decide

/-- C5, amended: after `load` with `n` items the used set is exactly `[0..n)`
(right length, no duplicates, exactly the indices below `n`), while the unused
set is left unchanged from the prior state — so the claimed invariant holds
exactly when the prior unused set was empty, as on a freshly constructed
reader. -/
theorem c5_load_amended (r : DataReader_ImageNet) (dir : String)
    (L : List (String × Int)) :
    (r.load dir L).ShuffledIndices.length = L.length ∧
    (r.load dir L).ShuffledIndices.Nodup ∧
    (∀ i : Int, i ∈ (r.load dir L).ShuffledIndices ↔ 0 ≤ i ∧ i < (L.length : Int)) ∧
    (r.load dir L).m_unused_indices = r.m_unused_indices := by
  have hused : (r.load dir L).ShuffledIndices
      = (List.range L.length).map (fun n : Nat => (n : Int)) := rfl
  refine ⟨?_, ?_, ?_, rfl⟩
  · rw [hused, List.length_map, List.length_range]
  · rw [hused]
    exact List.Nodup.map (fun a b h => by exact_mod_cast h) (List.nodup_range _)
  · intro i
    rw [hused]
    simp only [List.mem_map, List.mem_range]
    constructor
    · rintro ⟨a, ha, rfl⟩
      exact ⟨Int.natCast_nonneg a, by exact_mod_cast ha⟩
    · intro hi
      refine ⟨i.toNat, by omega, by omega⟩

/-! ## Claim C2: lbann_comm byte accounting -/

/-- The statistics counters of `lbann_comm` (lines 391-392). -/
structure CommStats where
  bytes_sent : Nat
  bytes_received : Nat
deriving Repr, DecidableEq

/-- Counter side effect of `intermodel_broadcast<T>` (lines 113-122):
`sizeof(T)` added to `bytes_sent` at the root, to `bytes_received` elsewhere
(the test compares `get_rank_in_model()` with `root`, as the source does). -/
def intermodel_broadcast_stats (sizeofT : Nat) (rank_in_model root : Int)
    (s : CommStats) : CommStats :=
  if rank_in_model = root then
    { s with bytes_sent := s.bytes_sent + sizeofT }
  else
    { s with bytes_received := s.bytes_received + sizeofT }

/-- Counter side effect of `model_broadcast<T>` (lines 127-136). -/
def model_broadcast_stats (sizeofT : Nat) (rank_in_model root : Int)
    (s : CommStats) : CommStats :=
  if rank_in_model = root then
    { s with bytes_sent := s.bytes_sent + sizeofT }
  else
    { s with bytes_received := s.bytes_received + sizeofT }

/-- Counter side effect of `send<T>(data, count, model, rank)` (lines 234-238). -/
def send_stats (sizeofT count : Nat) (s : CommStats) : CommStats :=
  { s with bytes_sent := s.bytes_sent + sizeofT * count }

/-- Counter side effect of `recv<T>(data, count, ...)` (lines 268-283). -/
def recv_stats (sizeofT count : Nat) (s : CommStats) : CommStats :=
  { s with bytes_received := s.bytes_received + sizeofT * count }

/-- Counter side effect of the scalar `model_allreduce<T>` (lines 204-211). -/
def model_allreduce_stats (sizeofT : Nat) (procs_per_model : Nat)
    (s : CommStats) : CommStats :=
  { s with
      bytes_sent := s.bytes_sent + sizeofT,
      bytes_received := s.bytes_received + sizeofT * (procs_per_model - 1) }

/-- Counter side effect of the array `model_allreduce<T>` (lines 213-218). -/
def model_allreduce_array_stats (sizeofT count : Nat) (procs_per_model : Nat)
    (s : CommStats) : CommStats :=
  { s with
      bytes_sent := s.bytes_sent + count * sizeofT,
      bytes_received := s.bytes_received + count * sizeofT * (procs_per_model - 1) }

/-- Counter side effect of the scalar `intermodel_gather<T>` for non-root
processes (lines 138-142). -/
def intermodel_gather_stats (sizeofT : Nat) (s : CommStats) : CommStats :=
  { s with bytes_sent := s.bytes_sent + sizeofT }

/-- Counter side effect of the scalar `intermodel_gather<T>` for the root
(lines 144-149). -/
def intermodel_gather_root_stats (sizeofT : Nat) (num_models : Nat)
    (s : CommStats) : CommStats :=
  { s with bytes_received := s.bytes_received + sizeofT * (num_models - 1) }

/-- Counter side effect of the array `intermodel_gather<T>` for non-root
processes (lines 151-155). -/
def intermodel_gather_array_stats (sizeofT count : Nat) (s : CommStats) : CommStats :=
  { s with bytes_sent := s.bytes_sent + sizeofT * count }

/-- Counter side effect of the array `intermodel_gather<T>` for the root
(lines 157-161). -/
def intermodel_gather_array_root_stats (sizeofT count : Nat) (num_models : Nat)
    (s : CommStats) : CommStats :=
  { s with bytes_received := s.bytes_received + sizeofT * count * (num_models - 1) }

/-- Counter side effect of `intermodel_reduce<T>` for non-root processes
(lines 163-167). -/
def intermodel_reduce_stats (sizeofT : Nat) (s : CommStats) : CommStats :=
  { s with bytes_sent := s.bytes_sent + sizeofT }

/-- Counter side effect of `intermodel_reduce<T>` for the root
(lines 169-176). -/
def intermodel_reduce_root_stats (sizeofT : Nat) (num_models : Nat)
    (s : CommStats) : CommStats :=
  { s with bytes_received := s.bytes_received + sizeofT * (num_models - 1) }

/-- Counter side effect of the scalar `model_reduce<T>` for non-root processes
(lines 178-182). -/
def model_reduce_stats (sizeofT : Nat) (s : CommStats) : CommStats :=
  { s with bytes_sent := s.bytes_sent + sizeofT }

/-- Counter side effect of the scalar `model_reduce<T>` for the root
(lines 184-190). -/
def model_reduce_root_stats (sizeofT : Nat) (procs_per_model : Nat)
    (s : CommStats) : CommStats :=
  { s with bytes_received := s.bytes_received + sizeofT * (procs_per_model - 1) }

/-- Counter side effect of the array `model_reduce<T>` for non-root processes
(lines 192-196). -/
def model_reduce_array_stats (sizeofT count : Nat) (s : CommStats) : CommStats :=
  { s with bytes_sent := s.bytes_sent + sizeofT * count }

/-- Counter side effect of the array `model_reduce<T>` for the root
(lines 198-202). -/
def model_reduce_array_root_stats (sizeofT count : Nat) (procs_per_model : Nat)
    (s : CommStats) : CommStats :=
  { s with bytes_received := s.bytes_received + sizeofT * count * (procs_per_model - 1) }

/-- Counter side effect of `nb_send<T>` (lines 248-253). -/
def nb_send_stats (sizeofT count : Nat) (s : CommStats) : CommStats :=
  { s with bytes_sent := s.bytes_sent + sizeofT * count }

/-- Counter side effect of `nb_recv<T>` (lines 288-309). -/
def nb_recv_stats (sizeofT count : Nat) (s : CommStats) : CommStats :=
  { s with bytes_received := s.bytes_received + sizeofT * count }

/-- Counter side effect of the arbitrary-subset
`broadcast(T* data, int count, dests, root)` (lines 326-343): the body builds
an ephemeral group and communicator and calls `mpi::Broadcast`, but touches
neither `bytes_sent` nor `bytes_received`. -/
def broadcast_stats (_sizeofT _count : Nat) (s : CommStats) : CommStats :=
  s

/-- C2, counterexample: a subset broadcast of one 4-byte value from the root
leaves `bytes_sent` at `0` instead of increasing it by 4, refuting the claim
that every payload-moving primitive, including the arbitrary-subset broadcast,
does the byte accounting. -/
theorem c2_subset_broadcast_counterexample :
    (broadcast_stats 4 1 { bytes_sent := 0, bytes_received := 0 }).bytes_sent
      ≠ 0 + 4 := by
  decide

/-- C2, amended: every typed scoped primitive — model and inter-model
broadcast, gather (scalar and array, root and non-root), reduce (all four
variants), all-reduce (scalar and array), blocking and non-blocking
send/recv — accounts its payload on the proper counters per the source
formula in `count * sizeof(T)`; a model or inter-model broadcast of one
4-byte value adds 4 to `bytes_sent` at the root and 4 to `bytes_received` at
each non-root peer, hence `4 * k` summed over `k` peers — but the
arbitrary-subset `broadcast` updates neither counter. -/
theorem c2_byte_accounting (sizeofT count models ppm : Nat) (root rim : Int)
    (s : CommStats) (peers : List CommStats) (hrim : rim ≠ root) :
    (model_broadcast_stats sizeofT root root s).bytes_sent
        = s.bytes_sent + sizeofT ∧
    (model_broadcast_stats sizeofT root root s).bytes_received
        = s.bytes_received ∧
    (model_broadcast_stats sizeofT rim root s).bytes_received
        = s.bytes_received + sizeofT ∧
    (model_broadcast_stats sizeofT rim root s).bytes_sent = s.bytes_sent ∧
    (intermodel_broadcast_stats sizeofT root root s).bytes_sent
        = s.bytes_sent + sizeofT ∧
    (intermodel_broadcast_stats sizeofT rim root s).bytes_received
        = s.bytes_received + sizeofT ∧
    (send_stats sizeofT count s).bytes_sent = s.bytes_sent + sizeofT * count ∧
    (send_stats sizeofT count s).bytes_received = s.bytes_received ∧
    (recv_stats sizeofT count s).bytes_received
        = s.bytes_received + sizeofT * count ∧
    (recv_stats sizeofT count s).bytes_sent = s.bytes_sent ∧
    broadcast_stats sizeofT count s = s ∧
    (intermodel_gather_stats sizeofT s).bytes_sent = s.bytes_sent + sizeofT ∧
    (intermodel_gather_stats sizeofT s).bytes_received = s.bytes_received ∧
    (intermodel_gather_root_stats sizeofT models s).bytes_received
        = s.bytes_received + sizeofT * (models - 1) ∧
    (intermodel_gather_root_stats sizeofT models s).bytes_sent = s.bytes_sent ∧
    (intermodel_gather_array_stats sizeofT count s).bytes_sent
        = s.bytes_sent + sizeofT * count ∧
    (intermodel_gather_array_root_stats sizeofT count models s).bytes_received
        = s.bytes_received + sizeofT * count * (models - 1) ∧
    (intermodel_reduce_stats sizeofT s).bytes_sent = s.bytes_sent + sizeofT ∧
    (intermodel_reduce_root_stats sizeofT models s).bytes_received
        = s.bytes_received + sizeofT * (models - 1) ∧
    (model_reduce_stats sizeofT s).bytes_sent = s.bytes_sent + sizeofT ∧
    (model_reduce_root_stats sizeofT ppm s).bytes_received
        = s.bytes_received + sizeofT * (ppm - 1) ∧
    (model_reduce_array_stats sizeofT count s).bytes_sent
        = s.bytes_sent + sizeofT * count ∧
    (model_reduce_array_root_stats sizeofT count ppm s).bytes_received
        = s.bytes_received + sizeofT * count * (ppm - 1) ∧
    (model_allreduce_stats sizeofT ppm s).bytes_sent = s.bytes_sent + sizeofT ∧
    (model_allreduce_stats sizeofT ppm s).bytes_received
        = s.bytes_received + sizeofT * (ppm - 1) ∧
    (model_allreduce_array_stats sizeofT count ppm s).bytes_sent
        = s.bytes_sent + count * sizeofT ∧
    (model_allreduce_array_stats sizeofT count ppm s).bytes_received
        = s.bytes_received + count * sizeofT * (ppm - 1) ∧
    (nb_send_stats sizeofT count s).bytes_sent = s.bytes_sent + sizeofT * count ∧
    (nb_recv_stats sizeofT count s).bytes_received
        = s.bytes_received + sizeofT * count ∧
    ((peers.map fun t => (model_broadcast_stats 4 rim root t).bytes_received).sum
        = (peers.map fun t => t.bytes_received).sum + 4 * peers.length) := by
  refine ⟨?_, ?_, ?_, ?_, ?_, ?_, rfl, rfl, rfl, rfl, rfl, rfl, rfl, rfl, rfl, rfl,
    rfl, rfl, rfl, rfl, rfl, rfl, rfl, rfl, rfl, rfl, rfl, rfl, rfl, ?_⟩
  · simp [model_broadcast_stats]
  · simp [model_broadcast_stats]
  · simp [model_broadcast_stats, hrim]
  · simp [model_broadcast_stats, hrim]
  · simp [intermodel_broadcast_stats]
  · simp [intermodel_broadcast_stats, hrim]
  · have hgen : ∀ ts : List CommStats,
        (ts.map fun t => t.bytes_received + 4).sum
          = (ts.map fun t => t.bytes_received).sum + 4 * ts.length := by
      intro ts
      induction ts with
      | nil => simp
      | cons t ts ih =>
        simp only [List.map_cons, List.sum_cons, List.length_cons, ih]
        ring
    have hpt : (fun t : CommStats =>
        (model_broadcast_stats 4 rim root t).bytes_received)
          = fun t : CommStats => t.bytes_received + 4 := by
      funext t
      simp [model_broadcast_stats, hrim]
    rw [hpt, hgen]

/-- C2 witness: root 0, one peer of rank 1, two models, two processes per
model, two peer states. -/
theorem c2_byte_accounting_witness :
    ((1 : Int) ≠ 0) ∧
    ((model_broadcast_stats 4 0 0 { bytes_sent := 0, bytes_received := 0 }).bytes_sent
        = 0 + 4 ∧
    (model_broadcast_stats 4 0 0 { bytes_sent := 0, bytes_received := 0 }).bytes_received
        = 0 ∧
    (model_broadcast_stats 4 1 0 { bytes_sent := 0, bytes_received := 0 }).bytes_received
        = 0 + 4 ∧
    (model_broadcast_stats 4 1 0 { bytes_sent := 0, bytes_received := 0 }).bytes_sent = 0 ∧
    (intermodel_broadcast_stats 4 0 0 { bytes_sent := 0, bytes_received := 0 }).bytes_sent
        = 0 + 4 ∧
    (intermodel_broadcast_stats 4 1 0 { bytes_sent := 0, bytes_received := 0 }).bytes_received
        = 0 + 4 ∧
    (send_stats 4 1 { bytes_sent := 0, bytes_received := 0 }).bytes_sent = 0 + 4 * 1 ∧
    (send_stats 4 1 { bytes_sent := 0, bytes_received := 0 }).bytes_received = 0 ∧
    (recv_stats 4 1 { bytes_sent := 0, bytes_received := 0 }).bytes_received = 0 + 4 * 1 ∧
    (recv_stats 4 1 { bytes_sent := 0, bytes_received := 0 }).bytes_sent = 0 ∧
    broadcast_stats 4 1 { bytes_sent := 0, bytes_received := 0 }
        = { bytes_sent := 0, bytes_received := 0 } ∧
    (intermodel_gather_stats 4 { bytes_sent := 0, bytes_received := 0 }).bytes_sent
        = 0 + 4 ∧
    (intermodel_gather_stats 4 { bytes_sent := 0, bytes_received := 0 }).bytes_received
        = 0 ∧
    (intermodel_gather_root_stats 4 2 { bytes_sent := 0, bytes_received := 0 }).bytes_received
        = 0 + 4 * (2 - 1) ∧
    (intermodel_gather_root_stats 4 2 { bytes_sent := 0, bytes_received := 0 }).bytes_sent
        = 0 ∧
    (intermodel_gather_array_stats 4 1 { bytes_sent := 0, bytes_received := 0 }).bytes_sent
        = 0 + 4 * 1 ∧
    (intermodel_gather_array_root_stats 4 1 2
        { bytes_sent := 0, bytes_received := 0 }).bytes_received
        = 0 + 4 * 1 * (2 - 1) ∧
    (intermodel_reduce_stats 4 { bytes_sent := 0, bytes_received := 0 }).bytes_sent
        = 0 + 4 ∧
    (intermodel_reduce_root_stats 4 2 { bytes_sent := 0, bytes_received := 0 }).bytes_received
        = 0 + 4 * (2 - 1) ∧
    (model_reduce_stats 4 { bytes_sent := 0, bytes_received := 0 }).bytes_sent
        = 0 + 4 ∧
    (model_reduce_root_stats 4 2 { bytes_sent := 0, bytes_received := 0 }).bytes_received
        = 0 + 4 * (2 - 1) ∧
    (model_reduce_array_stats 4 1 { bytes_sent := 0, bytes_received := 0 }).bytes_sent
        = 0 + 4 * 1 ∧
    (model_reduce_array_root_stats 4 1 2
        { bytes_sent := 0, bytes_received := 0 }).bytes_received
        = 0 + 4 * 1 * (2 - 1) ∧
    (model_allreduce_stats 4 2 { bytes_sent := 0, bytes_received := 0 }).bytes_sent
        = 0 + 4 ∧
    (model_allreduce_stats 4 2 { bytes_sent := 0, bytes_received := 0 }).bytes_received
        = 0 + 4 * (2 - 1) ∧
    (model_allreduce_array_stats 4 1 2
        { bytes_sent := 0, bytes_received := 0 }).bytes_sent
        = 0 + 1 * 4 ∧
    (model_allreduce_array_stats 4 1 2
        { bytes_sent := 0, bytes_received := 0 }).bytes_received
        = 0 + 1 * 4 * (2 - 1) ∧
    (nb_send_stats 4 1 { bytes_sent := 0, bytes_received := 0 }).bytes_sent
        = 0 + 4 * 1 ∧
    (nb_recv_stats 4 1 { bytes_sent := 0, bytes_received := 0 }).bytes_received
        = 0 + 4 * 1 ∧
    (([{ bytes_sent := 0, bytes_received := 0 },
       { bytes_sent := 1, bytes_received := 2 }].map
        fun t => (model_broadcast_stats 4 1 0 t).bytes_received).sum
      = (([{ bytes_sent := 0, bytes_received := 0 },
          { bytes_sent := 1, bytes_received := 2 }] : List CommStats).map
          fun t => t.bytes_received).sum
        + 4 * ([{ bytes_sent := 0, bytes_received := 0 },
                { bytes_sent := 1, bytes_received := 2 }] : List CommStats).length)) :=
  ⟨by decide,
    c2_byte_accounting 4 1 2 2 0 1 { bytes_sent := 0, bytes_received := 0 }
      [{ bytes_sent := 0, bytes_received := 0 },
       { bytes_sent := 1, bytes_received := 2 }] (by decide)⟩

/-! ## Claim C9: fetch_data and fetch_label -/

/-- Column-major matrix abstraction for Elemental `Mat`: row index (an `int`
in the source, e.g. a label), column index, rational entry. -/
def Mat : Type :=
  Int → Nat → ℚ

/-- One `Y.Set(i0, j0, v)` call. -/
def matSet (Y : Mat) (i0 : Int) (j0 : Nat) (v : ℚ) : Mat :=
  fun i j => if i = i0 ∧ j = j0 then v else Y i j

/-- The inner pixel loop of `fetch_data`: `X.Set(p, k, ...)` for every
`0 <= p < pixelcount`, with `px p` the normalized value of pixel `p`. -/
def setPixCol (X : Mat) (k : Nat) (px : Nat → ℚ) (pixelcount : Int) : Mat :=
  fun i j => if j = k ∧ 0 ≤ i ∧ i < pixelcount then px i.toNat else X i j

/-- `ImageList[ShuffledIndices[n]].second`, the label of the sample at cursor
position `n`. -/
def labelAt (r : DataReader_ImageNet) (n : Nat) : Int :=
  (r.ImageList.getD (r.ShuffledIndices.getD n 0).toNat ("", 0)).2

/-- `m_image_dir + ImageList[ShuffledIndices[n]].first`, the image path of the
sample at cursor position `n`. -/
def pathAt (r : DataReader_ImageNet) (n : Nat) : String :=
  r.m_image_dir ++ (r.ImageList.getD (r.ShuffledIndices.getD n 0).toNat ("", 0)).1

/-- The `for (n = CurrentPos; n < CurrentPos + current_batch_size; n++)` loop
of `fetch_label` (lines 106-115): `fuel` counts the remaining iterations up to
the batch size, `k = n - CurrentPos` is the output column, and the loop breaks
at the end of the index set. -/
def fetch_label_go (r : DataReader_ImageNet) (pos : Nat) :
    Nat → Nat → Mat → Mat × Nat
  | 0, k, Y => (Y, k)
  | fuel + 1, k, Y =>
    if pos + k < r.ShuffledIndices.length then
      fetch_label_go r pos fuel (k + 1) (matSet Y (labelAt r (pos + k)) k 1)
    else (Y, k)

/-- `DataReader_ImageNet::fetch_label` (lines 98-117), faithful for
`CurrentPos >= 0` (the source indexes the vector with `CurrentPos` directly). -/
def DataReader_ImageNet.fetch_label (r : DataReader_ImageNet) (Y : Mat) :
    Mat × Nat :=
  if position_valid r.toDataReader = true then
    fetch_label_go r r.CurrentPos.toNat (getBatchSize r.toDataReader).toNat 0 Y
  else (Y, 0)

/-- The loop of `fetch_data` (lines 72-93).  `loadOK`, `loadW`, `loadH` and
`loadPx` model the external `image_utils::loadJPG`: whether the file decodes,
the decoded width and height, and the normalized pixel bytes. -/
def fetch_data_go (loadOK : String → Bool) (loadW loadH : String → Int)
    (loadPx : String → Nat → ℚ) (r : DataReader_ImageNet) (pos : Nat) :
    Nat → Nat → Mat → Except String (Mat × Nat)
  | 0, k, X => Except.ok (X, k)
  | fuel + 1, k, X =>
    if pos + k < r.ShuffledIndices.length then
      if loadOK (pathAt r (pos + k)) = false then
        Except.error "ImageNet: image_utils::loadJPG fauled to load"
      else if loadW (pathAt r (pos + k)) ≠ r.m_image_width ∨
          loadH (pathAt r (pos + k)) ≠ r.m_image_height then
        Except.error "ImageNet: mismatch data size -- either width or height"
      else
        fetch_data_go loadOK loadW loadH loadPx r pos fuel (k + 1)
          (setPixCol X k (loadPx (pathAt r (pos + k)))
            (r.m_image_width * r.m_image_height))
    else Except.ok (X, k)

/-- `DataReader_ImageNet::fetch_data` (lines 63-96), faithful for
`CurrentPos >= 0`; the thrown `lbann_exception`s are the `Except.error`
values. -/
def DataReader_ImageNet.fetch_data (loadOK : String → Bool)
    (loadW loadH : String → Int) (loadPx : String → Nat → ℚ)
    (r : DataReader_ImageNet) (X : Mat) : Except String (Mat × Nat) :=
  if position_valid r.toDataReader = true then
    fetch_data_go loadOK loadW loadH loadPx r r.CurrentPos.toNat
      (getBatchSize r.toDataReader).toNat 0 X
  else Except.ok (X, 0)

theorem position_valid_iff (r : DataReader) :
    position_valid r = true ↔ r.CurrentPos < getNumData r := by
  simp [position_valid]

/-- Loop invariant of `fetch_label_go`: it fills
`min fuel (size - (pos + k))` further columns starting at column `k`, touches
no other column, and writes `1` at the label row of each filled column. -/
theorem fetch_label_go_spec (r : DataReader_ImageNet) (pos : Nat) :
    ∀ (fuel k : Nat) (Y : Mat),
      (fetch_label_go r pos fuel k Y).2
          = k + min fuel (r.ShuffledIndices.length - (pos + k)) ∧
      (∀ i j, (j < k ∨ (fetch_label_go r pos fuel k Y).2 ≤ j) →
        (fetch_label_go r pos fuel k Y).1 i j = Y i j) ∧
      (∀ m, k ≤ m → m < (fetch_label_go r pos fuel k Y).2 →
        (fetch_label_go r pos fuel k Y).1 (labelAt r (pos + m)) m = 1) := by
  intro fuel
  induction fuel with
  | zero =>
    intro k Y
    refine ⟨by simp [fetch_label_go], ?_, ?_⟩
    · intro i j _
      simp [fetch_label_go]
    · intro m hkm hm
      simp [fetch_label_go] at hm
      omega
  | succ fuel ih =>
    intro k Y
    by_cases h : pos + k < r.ShuffledIndices.length
    · have hunfold : fetch_label_go r pos (fuel + 1) k Y
          = fetch_label_go r pos fuel (k + 1) (matSet Y (labelAt r (pos + k)) k 1) := by
        simp [fetch_label_go, h]
      obtain ⟨hc, hu, hf⟩ := ih (k + 1) (matSet Y (labelAt r (pos + k)) k 1)
      rw [hunfold]
      refine ⟨by rw [hc]; omega, ?_, ?_⟩
      · intro i j hj
        have hcount : k + 1 ≤ (fetch_label_go r pos fuel (k + 1)
            (matSet Y (labelAt r (pos + k)) k 1)).2 := by
          rw [hc]; omega
        have hj' : j < k + 1 ∨ (fetch_label_go r pos fuel (k + 1)
            (matSet Y (labelAt r (pos + k)) k 1)).2 ≤ j := by
          rcases hj with hj | hj
          · exact Or.inl (by omega)
          · exact Or.inr hj
        rw [hu i j hj']
        have hjk : ¬ (i = labelAt r (pos + k) ∧ j = k) := by
          rintro ⟨-, rfl⟩
          rcases hj with hj | hj
          · omega
          · omega
        simp [matSet, hjk]
      · intro m hkm hm
        rcases Nat.eq_or_lt_of_le hkm with heq | hlt
        · rw [← heq]
          rw [hu _ k (Or.inl (by omega))]
          simp [matSet]
        · exact hf m hlt hm
    · have hunfold : fetch_label_go r pos (fuel + 1) k Y = (Y, k) := by
        simp [fetch_label_go, h]
      rw [hunfold]
      refine ⟨by simp; omega, ?_, ?_⟩
      · intro i j _
        rfl
      · intro m hkm hm
        simp at hm
        omega

/-- Loop invariant of `fetch_data_go` when every image decodes at the
configured dimensions: no exception, `min fuel (size - (pos + k))` further
columns filled with the decoded pixels, and no other column touched. -/
theorem fetch_data_go_spec (loadOK : String → Bool) (loadW loadH : String → Int)
    (loadPx : String → Nat → ℚ) (r : DataReader_ImageNet) (pos : Nat)
    (hok : ∀ s, loadOK s = true)
    (hw : ∀ s, loadW s = r.m_image_width)
    (hh : ∀ s, loadH s = r.m_image_height) :
    ∀ (fuel k : Nat) (X : Mat),
      ∃ X2 : Mat,
        fetch_data_go loadOK loadW loadH loadPx r pos fuel k X
            = Except.ok (X2, k + min fuel (r.ShuffledIndices.length - (pos + k))) ∧
        (∀ i j, (j < k ∨ k + min fuel (r.ShuffledIndices.length - (pos + k)) ≤ j) →
          X2 i j = X i j) ∧
        (∀ m, k ≤ m → m < k + min fuel (r.ShuffledIndices.length - (pos + k)) →
          ∀ p : Nat, (p : Int) < r.m_image_width * r.m_image_height →
            X2 p m = loadPx (pathAt r (pos + m)) p) := by
  intro fuel
  induction fuel with
  | zero =>
    intro k X
    refine ⟨X, by simp [fetch_data_go], ?_, ?_⟩
    · intro i j _
      rfl
    · intro m hkm hm
      omega
  | succ fuel ih =>
    intro k X
    by_cases h : pos + k < r.ShuffledIndices.length
    · have hunfold : fetch_data_go loadOK loadW loadH loadPx r pos (fuel + 1) k X
          = fetch_data_go loadOK loadW loadH loadPx r pos fuel (k + 1)
              (setPixCol X k (loadPx (pathAt r (pos + k)))
                (r.m_image_width * r.m_image_height)) := by
        simp [fetch_data_go, h, hok, hw, hh]
      obtain ⟨X2, heq, hu, hf⟩ := ih (k + 1)
        (setPixCol X k (loadPx (pathAt r (pos + k)))
          (r.m_image_width * r.m_image_height))
      refine ⟨X2, ?_, ?_, ?_⟩
      · rw [hunfold, heq]
        congr 2
        omega
      · intro i j hj
        have hj' : j < k + 1 ∨ (k + 1)
            + min fuel (r.ShuffledIndices.length - (pos + (k + 1))) ≤ j := by
          omega
        rw [hu i j hj']
        have hjk : j ≠ k := by omega
        simp [setPixCol, hjk]
      · intro m hkm hm p hp
        rcases Nat.eq_or_lt_of_le hkm with hkeq | hlt
        · rw [← hkeq]
          rw [hu _ k (Or.inl (by omega))]
          simp [setPixCol, hp]
        · exact hf m hlt (by omega) p hp
    · have hunfold : fetch_data_go loadOK loadW loadH loadPx r pos (fuel + 1) k X
          = Except.ok (X, k) := by
        simp [fetch_data_go, h]
      refine ⟨X, ?_, ?_, ?_⟩
      · rw [hunfold]
        congr 2
        omega
      · intro i j _
        rfl
      · intro m hkm hm
        omega

/-- C9: with a nonnegative cursor and images that decode at the configured
dimensions, `fetch_data` and `fetch_label` return `0` when the cursor is at or
past the end of the used set; otherwise both fill exactly
`min getBatchSize (|used| - CurrentPos)` columns — the full batch, or fewer
when the tail is reached first, never reading an index position at or beyond
`|used|` — leave every other column untouched, and return that count. -/
theorem c9_fetch_bounds (loadOK : String → Bool) (loadW loadH : String → Int)
    (loadPx : String → Nat → ℚ) (r : DataReader_ImageNet) (Y X : Mat)
    (hpos : 0 ≤ r.CurrentPos)
    (hok : ∀ s, loadOK s = true)
    (hw : ∀ s, loadW s = r.m_image_width)
    (hh : ∀ s, loadH s = r.m_image_height) :
    (position_valid r.toDataReader = false →
      r.fetch_label Y = (Y, 0) ∧
      DataReader_ImageNet.fetch_data loadOK loadW loadH loadPx r X
        = Except.ok (X, 0)) ∧
    (position_valid r.toDataReader = true →
      (r.fetch_label Y).2
          = min (getBatchSize r.toDataReader).toNat
              (r.ShuffledIndices.length - r.CurrentPos.toNat) ∧
      r.CurrentPos.toNat + (r.fetch_label Y).2 ≤ r.ShuffledIndices.length ∧
      (∀ i j, (r.fetch_label Y).2 ≤ j → (r.fetch_label Y).1 i j = Y i j) ∧
      (∀ m, m < (r.fetch_label Y).2 →
        (r.fetch_label Y).1 (labelAt r (r.CurrentPos.toNat + m)) m = 1) ∧
      (∃ X2 : Mat,
        DataReader_ImageNet.fetch_data loadOK loadW loadH loadPx r X
            = Except.ok (X2, (r.fetch_label Y).2) ∧
        (∀ i j, (r.fetch_label Y).2 ≤ j → X2 i j = X i j) ∧
        (∀ m, m < (r.fetch_label Y).2 →
          ∀ p : Nat, (p : Int) < r.m_image_width * r.m_image_height →
            X2 p m = loadPx (pathAt r (r.CurrentPos.toNat + m)) p))) := by
  constructor
  · intro hv
    constructor
    · simp [DataReader_ImageNet.fetch_label, hv]
    · simp [DataReader_ImageNet.fetch_data, hv]
  · intro hv
    have hlt : r.CurrentPos.toNat < r.ShuffledIndices.length := by
      have := (position_valid_iff r.toDataReader).mp hv
      unfold getNumData at this
      omega
    obtain ⟨hc, hu, hf⟩ := fetch_label_go_spec r r.CurrentPos.toNat
      (getBatchSize r.toDataReader).toNat 0 Y
    have hlabel : r.fetch_label Y
        = fetch_label_go r r.CurrentPos.toNat
            (getBatchSize r.toDataReader).toNat 0 Y := by
      simp [DataReader_ImageNet.fetch_label, hv]
    have hcnt : (r.fetch_label Y).2
        = min (getBatchSize r.toDataReader).toNat
            (r.ShuffledIndices.length - r.CurrentPos.toNat) := by
      rw [hlabel, hc]
      omega
    refine ⟨hcnt, by omega, ?_, ?_, ?_⟩
    · intro i j hj
      rw [hlabel]
      refine hu i j (Or.inr ?_)
      rw [← hlabel]
      exact hj
    · intro m hm
      rw [hlabel]
      refine hf m (Nat.zero_le m) ?_
      rw [← hlabel]
      exact hm
    · obtain ⟨X2, heq, hu2, hf2⟩ := fetch_data_go_spec loadOK loadW loadH loadPx
        r r.CurrentPos.toNat hok hw hh (getBatchSize r.toDataReader).toNat 0 X
      refine ⟨X2, ?_, ?_, ?_⟩
      · rw [DataReader_ImageNet.fetch_data, if_pos hv, heq, hcnt]
        congr 2
        omega
      · intro i j hj
        refine hu2 i j (Or.inr ?_)
        rw [hcnt] at hj
        omega
      · intro m hm p hp
        refine hf2 m (Nat.zero_le m) ?_ p hp
        rw [hcnt] at hm
        omega

/-- Reader used by the C9 witness: three images, cursor at 1, batch size 5. -/
def c9_reader : DataReader_ImageNet :=
  { BatchSize := 5, CurrentPos := 1, m_shuffle := false, m_stride := 5,
    m_base_offset := 0, m_model_offset := 0,
    m_use_alt_last_mini_batch_size := false,
    m_last_mini_batch_threshold := 0, m_last_mini_batch_size := 5,
    m_last_mini_batch_stride := 0,
    ShuffledIndices := [0, 1, 2], m_unused_indices := [],
    m_image_dir := "d/", ImageList := [("a", 3), ("b", 4), ("c", 5)],
    m_image_width := 256, m_image_height := 256, m_num_labels := 1000 }

/-- C9 witness: at `c9_reader` the batch size exceeds the 2 remaining samples,
so both fetches stop at the tail. -/
theorem c9_fetch_bounds_witness :
    ((0 : Int) ≤ c9_reader.CurrentPos ∧
      (∀ s : String, (fun _ => true) s = true) ∧
      (∀ s : String, (fun _ => (256 : Int)) s = c9_reader.m_image_width) ∧
      (∀ s : String, (fun _ => (256 : Int)) s = c9_reader.m_image_height)) ∧
    ((position_valid c9_reader.toDataReader = false →
      c9_reader.fetch_label (fun _ _ => 0) = ((fun _ _ => 0 : Mat), 0) ∧
      DataReader_ImageNet.fetch_data (fun _ => true) (fun _ => 256) (fun _ => 256)
          (fun _ _ => 0) c9_reader (fun _ _ => 0)
        = Except.ok ((fun _ _ => 0 : Mat), 0)) ∧
    (position_valid c9_reader.toDataReader = true →
      (c9_reader.fetch_label (fun _ _ => 0)).2
          = min (getBatchSize c9_reader.toDataReader).toNat
              (c9_reader.ShuffledIndices.length - c9_reader.CurrentPos.toNat) ∧
      c9_reader.CurrentPos.toNat + (c9_reader.fetch_label (fun _ _ => 0)).2
          ≤ c9_reader.ShuffledIndices.length ∧
      (∀ i j, (c9_reader.fetch_label (fun _ _ => 0)).2 ≤ j →
        (c9_reader.fetch_label (fun _ _ => 0)).1 i j = (fun _ _ => 0 : Mat) i j) ∧
      (∀ m, m < (c9_reader.fetch_label (fun _ _ => 0)).2 →
        (c9_reader.fetch_label (fun _ _ => 0)).1
          (labelAt c9_reader (c9_reader.CurrentPos.toNat + m)) m = 1) ∧
      (∃ X2 : Mat,
        DataReader_ImageNet.fetch_data (fun _ => true) (fun _ => 256) (fun _ => 256)
            (fun _ _ => 0) c9_reader (fun _ _ => 0)
            = Except.ok (X2, (c9_reader.fetch_label (fun _ _ => 0)).2) ∧
        (∀ i j, (c9_reader.fetch_label (fun _ _ => 0)).2 ≤ j →
          X2 i j = (fun _ _ => 0 : Mat) i j) ∧
        (∀ m, m < (c9_reader.fetch_label (fun _ _ => 0)).2 →
          ∀ p : Nat, (p : Int) < c9_reader.m_image_width * c9_reader.m_image_height →
            X2 p m = (fun _ _ => 0 : String → Nat → ℚ)
              (pathAt c9_reader (c9_reader.CurrentPos.toNat + m)) p)))) :=
  ⟨⟨by decide, fun _ => rfl, fun _ => rfl, fun _ => rfl⟩,
    c9_fetch_bounds (fun _ => true) (fun _ => 256) (fun _ => 256) (fun _ _ => 0)
      c9_reader (fun _ _ => 0) (fun _ _ => 0) (by decide)
      (fun _ => rfl) (fun _ => rfl) (fun _ => rfl)⟩

end Lbann
